import Mathlib

/-!
Shallow embedding of the DocuBot document-chat pipeline.

The definitions below are translated from the TypeScript sources of the
repository:

* `src/services/pdfService.ts` — PDF validation, text extraction, statistics;
* `src/services/groqService.ts` — context assembly and the model gateway with
  its primary/fallback control flow;
* `src/components/Chat.tsx` — the upload orchestrator (`handleFileUpload`);
* the utilities file — the hand-rolled markdown-to-HTML rewriter
  (`parseMarkdown`).

External collaborators (the PDF parsing library and the hosted model API) are
modelled as explicit input data: a parsed document is a list of per-page
outcomes, and the network transport is a function from requests to call
outcomes.  Strings are modelled as Lean `String` (sequences of characters);
JavaScript string primitives (`split`, `slice`, `trim`, `includes`,
`startsWith`, `replace`) are given explicit character-list implementations.
-/

/-! ### JavaScript string primitives -/

/-- Character class of the JavaScript regular-expression `\s` (and of
`String.prototype.trim`): ASCII whitespace plus the Unicode space
separators, line separators and the BOM. -/
def jsWhitespace (c : Char) : Bool :=
  c == ' ' || c == '\t' || c == '\n' || c == '\r' || c == '\x0b' || c == '\x0c' ||
  c == ' ' || c == ' ' || c == ' ' || c == ' ' ||
  c == ' ' || c == ' ' || c == ' ' || c == ' ' ||
  c == ' ' || c == ' ' || c == ' ' || c == ' ' ||
  c == ' ' || c == ' ' || c == ' ' || c == ' ' ||
  c == ' ' || c == '　' || c == '﻿'

/-- Accumulator-based tokenizer: splits a character list into its maximal
runs of non-whitespace characters.  `acc` holds the (reversed) characters of
the token currently being read.  This is the model of the JavaScript idiom
`text.split(/\s+/).filter(w => w.length > 0)`. -/
def tokensAux : List Char → List Char → List String
  | [], acc => if acc.isEmpty then [] else [String.mk acc.reverse]
  | c :: rest, acc =>
    if jsWhitespace c then
      if acc.isEmpty then tokensAux rest [] else String.mk acc.reverse :: tokensAux rest []
    else
      tokensAux rest (c :: acc)

/-- The whitespace-delimited non-empty tokens of a string. -/
def wsTokens (s : String) : List String := tokensAux s.data []

/-- Model of `.replace(/\s+/g, ' ').trim()`: every maximal whitespace run
becomes a single space and outer whitespace disappears. -/
def collapseWs (s : String) : String := String.intercalate " " (wsTokens s)

/-- Model of JavaScript `String.prototype.trim`. -/
def jsTrim (s : String) : String :=
  String.mk (((s.data.dropWhile jsWhitespace).reverse.dropWhile jsWhitespace).reverse)

/-- Model of JavaScript `str.slice(0, n)`. -/
def takeChars (n : Nat) (s : String) : String := String.mk (s.data.take n)

/-- Model of JavaScript `arr.slice(-n)` for positive `n`: the last `n`
elements (all of them when the array is shorter). -/
def jsSliceLast (n : Nat) (l : List α) : List α := l.drop (l.length - n)

/-- Boolean test that `pat` is a leading segment of the second list. -/
def charsLead : List Char → List Char → Bool
  | [], _ => true
  | _ :: _, [] => false
  | a :: ps, b :: ts => a == b && charsLead ps ts

/-- Boolean substring test on character lists. -/
def containsSub (pat : List Char) : List Char → Bool
  | [] => charsLead pat []
  | h :: t => charsLead pat (h :: t) || containsSub pat t

/-- Model of JavaScript `s.includes(pat)`. -/
def strIncludes (s pat : String) : Bool := containsSub pat.data s.data

/-- Number of positions of the second list at which `pat` occurs. -/
def countSub (pat : List Char) : List Char → Nat
  | [] => 0
  | h :: t => (if charsLead pat (h :: t) then 1 else 0) + countSub pat t

/-- Number of occurrences of `pat` in `s` (occurrence = starting position). -/
def strCount (s pat : String) : Nat := countSub pat.data s.data

/-- Model of JavaScript `s.startsWith(pat)`. -/
def strStartsWith (s pat : String) : Bool := charsLead pat.data s.data

/-- Model of JavaScript `s.endsWith(pat)`. -/
def strEndsWith (s pat : String) : Bool := charsLead pat.data.reverse s.data.reverse

/-- Model of JavaScript `s.replace(pat, rep)` for a plain (non-regex) search
string: only the first occurrence is replaced. -/
def replaceFirstChars (pat rep : List Char) : List Char → List Char
  | [] => []
  | h :: t =>
    if charsLead pat (h :: t) then rep ++ (h :: t).drop pat.length
    else h :: replaceFirstChars pat rep t

/-- String wrapper for `replaceFirstChars`. -/
def jsReplaceFirst (s pat rep : String) : String :=
  String.mk (replaceFirstChars pat.data rep.data s.data)

/-- Digit grouping on a reversed digit list: after every three digits a comma
is inserted. -/
def insertCommasRev : List Char → List Char
  | a :: b :: c :: d :: rest => a :: b :: c :: ',' :: insertCommasRev (d :: rest)
  | l => l

/-- Model of `Number.prototype.toLocaleString()` for natural numbers in the
default `en-US` locale: decimal digits in groups of three separated by
commas. -/
def natToLocaleString (n : Nat) : String :=
  String.mk (insertCommasRev (toString n).data.reverse).reverse

/-! ### `src/services/pdfService.ts` — extraction adapter -/

/-- One positioned text fragment returned by the PDF parser for a page; the
source keeps `item.str` when present and substitutes `''` otherwise. -/
inductive TextItem where
  | strItem (s : String)
  | noStr
deriving DecidableEq

/-- The string contributed by one text item (`'str' in item ? item.str : ''`). -/
def itemStr : TextItem → String
  | .strItem s => s
  | .noStr => ""

/-- Text of one page: the item strings joined with single spaces, whitespace
runs collapsed, and the result trimmed
(`items.map(...).join(' ').replace(/\s+/g, ' ').trim()`). -/
def pageText (items : List TextItem) : String :=
  collapseWs (String.intercalate " " (items.map itemStr))

/-- Outcome of processing one page: either the parser returns its text items,
or some per-page call throws. -/
inductive PageOutcome where
  | ok (items : List TextItem)
  | threw
deriving DecidableEq

/-- Whether a page contributes a block to the output: an errored page always
does, a parsed page only when its collapsed text is non-empty (the source
guards the push with `if (pageText)`). -/
def producesBlock : PageOutcome → Bool
  | .ok items => pageText items != ""
  | .threw => true

/-- The page marker `--- Page N ---`. -/
def pageMarker (n : Nat) : String := "--- Page " ++ toString n ++ " ---"

/-- Block pushed for a page with non-empty text:
`` `--- Page ${pageNum} ---\n${pageText}\n` ``. -/
def pageBlock (n : Nat) (txt : String) : String :=
  pageMarker n ++ "\n" ++ txt ++ "\n"

/-- Block pushed when extracting a single page throws. -/
def pageErrorBlock (n : Nat) : String :=
  pageMarker n ++ "\n" ++ "[Error extracting text from this page]" ++ "\n"

/-- The `textPages` array built by the extraction loop, starting at page
number `n`.  Parsed pages with empty text push nothing. -/
def buildBlocks (n : Nat) : List PageOutcome → List String
  | [] => []
  | .ok items :: rest =>
    let pt := pageText items
    if pt = "" then buildBlocks (n + 1) rest
    else pageBlock n pt :: buildBlocks (n + 1) rest
  | .threw :: rest => pageErrorBlock n :: buildBlocks (n + 1) rest

/-- `textPages.join('\n').trim()`: the full extracted text of a document. -/
def fullTextOf (pages : List PageOutcome) : String :=
  jsTrim (String.intercalate "\n" (buildBlocks 1 pages))

/-- The raw document-information bag returned by `pdf.getMetadata()`: each
field is present (as a string) or absent. -/
structure RawMetadataInfo where
  title : Option String := none
  author : Option String := none
  subject : Option String := none
  creator : Option String := none
  producer : Option String := none
  creationDate : Option String := none
  keywords : Option String := none
deriving DecidableEq

/-- Outcome of the best-effort metadata read: the info bag, or a throw (which
the source logs and ignores, leaving `metadata = {}`). -/
inductive MetadataOutcome where
  | ok (info : RawMetadataInfo)
  | threw
deriving DecidableEq

/-- The metadata object stored on the extraction result.  Mirrors the object
literal built in `extractTextFromPDF`; note that the source never writes a
`pageCount` field into it, so that field is always absent. -/
structure PDFMeta where
  title : Option String := none
  author : Option String := none
  subject : Option String := none
  creator : Option String := none
  producer : Option String := none
  creationDate : Option String := none
  keywords : Option String := none
  pageCount : Option Nat := none
deriving DecidableEq

/-- The metadata assembly of `extractTextFromPDF`: defaulted fields on
success, the empty object when the metadata read throws. -/
def buildMetadata (fileName : String) : MetadataOutcome → PDFMeta
  | .threw => {}
  | .ok info =>
    { title := some (info.title.getD (jsReplaceFirst fileName ".pdf" ""))
      author := some (info.author.getD "Unknown")
      subject := some (info.subject.getD "Document Analysis")
      creator := some (info.creator.getD "PDF Creator")
      producer := some (info.producer.getD "Unknown")
      creationDate := info.creationDate
      keywords := some (info.keywords.getD "")
      pageCount := none }

/-- A successfully decoded PDF document: its per-page outcomes (the page
count is the length of this list) and the metadata-read outcome. -/
structure PDFDocument where
  pages : List PageOutcome
  metadataOutcome : MetadataOutcome
deriving DecidableEq

/-- Outcome of `pdfjsLib.getDocument(...)`: a decoded document, or a throw
whose message the adapter classifies. -/
inductive LoadOutcome where
  | ok (doc : PDFDocument)
  | threw (msg : String)
deriving DecidableEq

/-- The `PDFProcessingResult` of the source. -/
structure PDFProcessingResult where
  text : String
  pageCount : Nat
  metadata : PDFMeta
deriving DecidableEq

/-- Message of the error thrown inside the extraction `try` block when the
combined text is missing or shorter than 10 characters. -/
def emptyExtractionMsg : String :=
  "PDF appears to be empty or contains only images/scanned content. Text extraction failed."

/-- User-facing message for a corrupt or non-PDF byte stream. -/
def invalidDocumentMsg : String :=
  "The uploaded file appears to be corrupted or is not a valid PDF document."

/-- User-facing message for a password-protected document. -/
def passwordProtectedMsg : String :=
  "This PDF is password-protected. Please upload an unprotected PDF file."

/-- User-facing message for a document with no extractable text. -/
def emptyOrImageOnlyMsg : String :=
  "This PDF appears to contain only images or scanned content. Please try a PDF with selectable text."

/-- The `catch` block of `extractTextFromPDF`: maps the message of the
underlying failure onto one of the user-facing error categories. -/
def classifyExtractionError (msg : String) : String :=
  if strIncludes msg "Invalid PDF" then invalidDocumentMsg
  else if strIncludes msg "password" then passwordProtectedMsg
  else if strIncludes msg "empty" then emptyOrImageOnlyMsg
  else "Failed to extract text from PDF: " ++ msg

/-- The extraction adapter `extractTextFromPDF`: classify a load failure;
otherwise assemble metadata and the page-blocked text, and reject a result
shorter than 10 characters (that throw is classified by the same `catch`). -/
def extractTextFromPDF (fileName : String) : LoadOutcome → Except String PDFProcessingResult
  | .threw msg => .error (classifyExtractionError msg)
  | .ok doc =>
    let metadata := buildMetadata fileName doc.metadataOutcome
    let fullText := fullTextOf doc.pages
    if fullText.length < 10 then .error (classifyExtractionError emptyExtractionMsg)
    else .ok { text := fullText, pageCount := doc.pages.length, metadata := metadata }

/-- The `{ valid, error? }` object returned by `validatePDFFile`. -/
structure ValidationResult where
  valid : Bool
  error : Option String
deriving DecidableEq

/-- Text of the size-limit error.  The source interpolates
`formatFileSize`, which renders the sizes with floating-point `Math.log` and
`toFixed`; that rendering is not reproduced here (no claim depends on it) —
the message is modelled with exact byte counts instead. -/
def tooLargeMessage (size : Nat) : String :=
  "File size (" ++ toString size ++ " bytes) exceeds the maximum limit of " ++
    toString (15 * 1024 * 1024) ++ " bytes"

/-- `validatePDFFile`: rejects a non-PDF declared media type, then rejects a
byte size strictly above `15 * 1024 * 1024`. -/
def validatePDFFile (fileType : String) (fileSize : Nat) : ValidationResult :=
  if fileType ≠ "application/pdf" then { valid := false, error := some "Please select a PDF file" }
  else if fileSize > 15 * 1024 * 1024 then
    { valid := false, error := some (tooLargeMessage fileSize) }
  else { valid := true, error := none }

/-- The parts of a browser `File` object the pipeline reads. -/
structure JSFile where
  name : String
  mimeType : String
  size : Nat
deriving DecidableEq

/-- The `Attachment` record built by `processPDFFile`.  The random `id` and
the blob-URL generation are environment effects; the URL is passed in as
data and the `id` is not modelled. -/
structure Attachment where
  name : String
  kind : String
  size : Nat
  url : String
  extractedText : Option String
  metadata : Option PDFMeta
deriving DecidableEq

/-- `processPDFFile`: validate, then extract, then build the attachment.  A
validation failure throws the validation error message before any extraction
work. -/
def processPDFFile (file : JSFile) (load : LoadOutcome) (blobUrl : String) :
    Except String Attachment :=
  let validation := validatePDFFile file.mimeType file.size
  if validation.valid then
    match extractTextFromPDF file.name load with
    | .error e => .error e
    | .ok r =>
      .ok { name := file.name, kind := "pdf", size := file.size, url := blobUrl,
            extractedText := some r.text, metadata := some r.metadata }
  else .error (validation.error.getD "")

/-- The record returned by `getPDFStats`. -/
structure PDFStats where
  wordCount : Nat
  characterCount : Nat
  readingTime : Nat
  pages : Nat
deriving DecidableEq

/-- `getPDFStats`: word count over `extractedText || ''` via
`split(/\s+/).filter(...)`, character count, reading time
`Math.ceil(words / 200)`, and pages from `metadata?.pageCount || 0`. -/
def getPDFStats (att : Attachment) : PDFStats :=
  let text := att.extractedText.getD ""
  let words := wsTokens text
  { wordCount := words.length
    characterCount := text.length
    readingTime := (words.length + 199) / 200
    pages := (att.metadata.bind PDFMeta.pageCount).getD 0 }

/-! ### `src/services/groqService.ts` — context assembly and model gateway -/

/-- One role-tagged message of an outbound chat request (`GroqMessage`). -/
structure ChatMessage where
  role : String
  content : String
deriving DecidableEq

/-- The fixed system instructions (`aiPrompt`) sent on every request. -/
def aiPrompt : String :=
  "You are an elite AI assistant specializing in document analysis and intelligent conversation. You excel at understanding PDF documents, extracting insights, and providing clear, professional responses with a vintage scholarly approach.

Core Capabilities:
- Comprehensive document analysis and understanding with scholarly precision
- Intelligent information extraction and detailed summarization
- Context-aware responses that demonstrate deep comprehension
- Clear explanations of complex concepts with academic rigor
- Professional, articulate communication with vintage sophistication

Response Excellence:
1. Provide precise, well-structured answers that directly address the inquiry
2. Use clear, eloquent language while maintaining technical accuracy
3. Structure responses with proper formatting and logical progression
4. Include specific examples or references when relevant
5. Offer actionable insights and scholarly recommendations

Response Structure:
- Begin with a direct, authoritative answer to the core question
- Follow with supporting analysis and contextual information
- Use proper formatting (bold, italics, lists) for maximum clarity
- Conclude with practical insights or next steps when appropriate
- Maintain a professional yet approachable scholarly tone

Document Analysis Approach:
- Thoroughly examine content structure, key themes, and relationships
- Extract relevant information with precision and context
- Identify important patterns, conclusions, and implications
- Provide comprehensive summaries that capture essential elements
- Offer intelligent insights that go beyond surface-level content

Your mission is to provide intelligent, accurate, and insightful analysis that transforms complex documents into accessible, actionable knowledge with the refinement of classic scholarship."

/-- The configured primary model identifier (`GROQ_CONFIG.DEFAULT_MODEL`). -/
def defaultModel : String := "meta-llama/llama-4-scout-17b-16e-instruct"

/-- The configured fallback model identifier (`GROQ_CONFIG.FALLBACK_MODEL`). -/
def fallbackModel : String := "llama3-8b-8192"

/-- Generation parameters of a request.  The source passes these as IEEE
doubles; the exact rational values of the literals are used here (the
parameters are inert configuration data). -/
structure GenParams where
  temperature : ℚ
  maxTokens : Nat
  topP : ℚ
  frequencyPenalty : Option ℚ
  presencePenalty : Option ℚ
deriving DecidableEq

/-- `GROQ_CONFIG.GENERATION_PARAMS`, used by the primary attempt. -/
def defaultGenParams : GenParams :=
  { temperature := 7/10, maxTokens := 2000, topP := 95/100,
    frequencyPenalty := some (1/10), presencePenalty := some (5/100) }

/-- The more conservative parameters of the fallback attempt. -/
def fallbackGenParams : GenParams :=
  { temperature := 6/10, maxTokens := 1500, topP := 9/10,
    frequencyPenalty := none, presencePenalty := none }

/-- One outbound request to `groq.chat.completions.create`. -/
structure GroqRequest where
  model : String
  messages : List ChatMessage
  params : GenParams
deriving DecidableEq

/-- The system message placed first in every request. -/
def systemMessage : ChatMessage := { role := "system", content := aiPrompt }

/-- JavaScript truthiness of the optional `documentContext` argument: absent
and empty strings are both falsy. -/
def docPresent : Option String → Bool
  | some d => d != ""
  | none => false

/-- Content of the user turn of the primary attempt: the raw question, or —
when a document context is (truthily) present — the context template with the
document sliced to 8000 characters. -/
def primaryUserContent (q : String) (doc : Option String) : String :=
  if docPresent doc then
    "Document Context:\n" ++ takeChars 8000 (doc.getD "") ++ "\n\nUser Question: " ++ q
  else q

/-- Content of the user turn of the fallback attempt: as the primary, with a
6000-character document budget. -/
def fallbackUserContent (q : String) (doc : Option String) : String :=
  if docPresent doc then
    "Document Context:\n" ++ takeChars 6000 (doc.getD "") ++ "\n\nUser Question: " ++ q
  else q

/-- The request assembled by the primary attempt of `chatWithContext`: the
system message, then (when the history is non-empty) `history.slice(-10)`,
then the user turn. -/
def primaryRequest (q : String) (hist : List ChatMessage) (doc : Option String) : GroqRequest :=
  { model := defaultModel
    messages :=
      (systemMessage :: (if hist.length > 0 then jsSliceLast 10 hist else [])) ++
        [{ role := "user", content := primaryUserContent q doc }]
    params := defaultGenParams }

/-- The request assembled by the fallback attempt: the system message,
`history.slice(-8)` unconditionally, then the user turn with the smaller
document budget. -/
def fallbackRequest (q : String) (hist : List ChatMessage) (doc : Option String) : GroqRequest :=
  { model := fallbackModel
    messages :=
      systemMessage :: jsSliceLast 8 hist ++ [{ role := "user", content := fallbackUserContent q doc }]
    params := fallbackGenParams }

/-- Outcome of one network call: the SDK throws (timeout, transport error,
API error — the payload is the thrown error), or it returns a completion
whose `choices[0]?.message?.content` is the given optional string. -/
inductive CallOutcome where
  | threw (err : String)
  | returned (content : Option String)
deriving DecidableEq

/-- Result of one attempt as the source evaluates it: a thrown call, an
absent content and the empty-string content (all falsy under `!response`)
yield `none`; any other content is accepted and trimmed. -/
def attemptResponse : CallOutcome → Option String
  | .threw _ => none
  | .returned none => none
  | .returned (some s) => if s = "" then none else some (jsTrim s)

/-- The single user-facing message thrown when both attempts fail. -/
def serviceUnavailableMsg : String :=
  "AI service is currently unavailable. Please try again in a moment."

/-- `chatWithContext`, with the network modelled as a `transport` function
from requests to call outcomes.  Returns the overall result together with
the list of requests actually issued, in order: the primary request always,
and the fallback request exactly when the primary attempt fails. -/
def chatWithContext (q : String) (hist : List ChatMessage) (doc : Option String)
    (transport : GroqRequest → CallOutcome) : Except String String × List GroqRequest :=
  let req1 := primaryRequest q hist doc
  match attemptResponse (transport req1) with
  | some r => (.ok r, [req1])
  | none =>
    let req2 := fallbackRequest q hist doc
    match attemptResponse (transport req2) with
    | some r => (.ok r, [req1, req2])
    | none => (.error serviceUnavailableMsg, [req1, req2])

/-! ### `src/components/Chat.tsx` — upload orchestrator -/

/-- The four de-duplicated match lists returned by `extractKeyInfo`. -/
structure KeyInfo where
  emails : List String
  phones : List String
  urls : List String
  dates : List String
deriving DecidableEq

/-- One conditional section of the analysis message: label, the first three
matches joined by `, `, an ellipsis when more than three exist, and a
newline; the empty string when the category has no match. -/
def kiSection (label : String) (items : List String) : String :=
  if items.length > 0 then
    label ++ String.intercalate ", " (items.take 3) ++
      (if items.length > 3 then "..." else "") ++ "\n"
  else ""

/-- Content of the assistant analysis message synthesized by
`handleFileUpload` after a successful upload. -/
def analysisContent (att : Attachment) (ki : KeyInfo) : String :=
  let stats := getPDFStats att
  "# PDF Analysis Complete\n\n**Document**: " ++ att.name ++
  "\n**Pages**: " ++ toString stats.pages ++
  "\n**Word Count**: " ++ natToLocaleString stats.wordCount ++
  "\n**Character Count**: " ++ natToLocaleString stats.characterCount ++
  "\n**Estimated Reading Time**: " ++ toString stats.readingTime ++ " minutes\n\n" ++
  kiSection "**Email Addresses Found**: " ki.emails ++
  kiSection "**Phone Numbers Found**: " ki.phones ++
  kiSection "**Dates Found**: " ki.dates ++
  "\nI have successfully extracted and analyzed the content from your PDF document. The text has been processed and I am now ready to answer questions, provide summaries, or discuss any specific aspects of the document.\n\n## What would you like to know about this document?\n\nSome suggestions:\n- \"Summarize the main points\"\n- \"What are the key topics covered?\"\n- \"Extract important dates or numbers\"\n- \"What conclusions does the document reach?\""

/-- The orchestrator state touched by `handleFileUpload`: the conversation,
the single active attachment, the dismissible error message, the loading
flag, and — to make resource release observable — the list of blob URLs
revoked so far. -/
structure OrchestratorState where
  messages : List ChatMessage
  attachment : Option Attachment
  error : Option String
  isLoading : Bool
  releasedUrls : List String
deriving DecidableEq

/-- `cleanupPDFResources`: revokes the attachment display handle when it is a
blob URL. -/
def releaseAttachment (released : List String) (att : Attachment) : List String :=
  if strStartsWith att.url "blob:" then released ++ [att.url] else released

/-- The state transition of `handleFileUpload`, applied to the outcome of
`processPDFFile`.  On success: the previous attachment (if any) is released,
the new one stored, and the analysis message appended; the error slot is
clear.  On failure: only the error slot changes — the previous attachment,
the conversation and the released-URL list are untouched. -/
def handleFileUpload (st : OrchestratorState) (outcome : Except String Attachment)
    (ki : KeyInfo) : OrchestratorState :=
  match outcome with
  | .ok newAtt =>
    { st with
      releasedUrls :=
        match st.attachment with
        | some old => releaseAttachment st.releasedUrls old
        | none => st.releasedUrls
      attachment := some newAtt
      messages := st.messages ++ [{ role := "assistant", content := analysisContent newAtt ki }]
      error := none
      isLoading := false }
  | .error msg => { st with error := some msg, isLoading := false }

/-! ### the utilities file — `parseMarkdown` -/

/-- Split on newline characters; a trailing newline yields a final empty
line, matching how the multiline (`m`) regex flags see line boundaries. -/
def splitOnNl : List Char → List (List Char)
  | [] => [[]]
  | c :: rest =>
    if c = '\n' then [] :: splitOnNl rest
    else
      match splitOnNl rest with
      | [] => [[c]]
      | l :: ls => (c :: l) :: ls

/-- Join lines back with newlines. -/
def joinLines (ls : List (List Char)) : List Char := (List.intersperse ['\n'] ls).flatten

/-- Apply a per-line rewrite; models a `/^...$/gim` replace whose pattern
cannot cross a line boundary. -/
def mapLines (f : List Char → List Char) (cs : List Char) : List Char :=
  joinLines ((splitOnNl cs).map f)

/-- One heading rule `/^#+ (.*$)/gim`: when the line starts with the given
hash run followed by a space, wrap the rest of the line in the tag pair. -/
def headingLine (hashes openTag closeTag : List Char) (line : List Char) : List Char :=
  if charsLead (hashes ++ [' ']) line then openTag ++ line.drop (hashes.length + 1) ++ closeTag
  else line

/-- Scan for the earliest occurrence of `dClose`, returning the characters
before it and the remainder after it.  When `allowNl` is false a newline
aborts the scan — the lazy `.*?` of the source regexes cannot cross a line,
while `[\s\S]*?` (code fences) can. -/
def findClose (dClose : List Char) (allowNl : Bool) : List Char → Option (List Char × List Char)
  | [] => none
  | c :: rest =>
    if charsLead dClose (c :: rest) then some ([], (c :: rest).drop dClose.length)
    else if !allowNl && c == '\n' then none
    else
      match findClose dClose allowNl rest with
      | some (cap, rem) => some (c :: cap, rem)
      | none => none

/-- Global replace of a lazy delimited pair, e.g. `/\*\*(.*?)\*\*/g`: at each
position where the opening delimiter matches and a closing delimiter follows,
emit `pre ++ capture ++ post` and continue after the match; otherwise advance
one character.  Fuelled; the callers pass `length + 1`. -/
def replaceLazyPair (dOpen dClose pre post : List Char) (allowNl : Bool) :
    Nat → List Char → List Char
  | 0, cs => cs
  | _ + 1, [] => []
  | fuel + 1, c :: rest =>
    if charsLead dOpen (c :: rest) then
      match findClose dClose allowNl ((c :: rest).drop dOpen.length) with
      | some (cap, rem) =>
        pre ++ cap ++ post ++ replaceLazyPair dOpen dClose pre post allowNl fuel rem
      | none => c :: replaceLazyPair dOpen dClose pre post allowNl fuel rest
    else c :: replaceLazyPair dOpen dClose pre post allowNl fuel rest

/-- The bullet-item rule `/^\- (.*$)/gim`.  The replacement text reproduces
the source file byte-for-byte, including its mojibake bullet. -/
def bulletLine (line : List Char) : List Char :=
  if charsLead ('-' :: ' ' :: []) line then
    "<li class=\"ml-4 mb-2\">â€¢ ".data ++ line.drop 2 ++ "</li>".data
  else line

/-- The ordered-item rule `/^\d+\. (.*$)/gim`: a maximal leading digit run
followed by `. `. -/
def orderedLine (line : List Char) : List Char :=
  let ds := line.takeWhile Char.isDigit
  if ds.length > 0 && charsLead ('.' :: ' ' :: []) (line.drop ds.length) then
    "<li class=\"ml-4 mb-2 list-decimal\">".data ++ line.drop (ds.length + 2) ++ "</li>".data
  else line

/-- Match one unit of the list-wrapping regex `(<li.*?>.*?<\/li>\s*)`: an
`<li` tag (lazy to its `>`), lazy content to `</li>`, then greedy trailing
whitespace.  Returns the matched text and the remainder. -/
def liUnit (cs : List Char) : Option (List Char × List Char) :=
  if charsLead "<li".data cs then
    match findClose ['>'] false (cs.drop 3) with
    | some (tagRest, afterTag) =>
      match findClose "</li>".data false afterTag with
      | some (content, afterClose) =>
        let ws := afterClose.takeWhile jsWhitespace
        some ("<li".data ++ tagRest ++ ['>'] ++ content ++ "</li>".data ++ ws,
              afterClose.drop ws.length)
      | none => none
    | none => none
  else none

/-- Consume a maximal run of consecutive list-item units. -/
def liRunAux : Nat → List Char → List Char × List Char
  | 0, cs => ([], cs)
  | fuel + 1, cs =>
    match liUnit cs with
    | some (m, rem) =>
      let p := liRunAux fuel rem
      (m ++ p.1, p.2)
    | none => ([], cs)

/-- The list-wrapping rule `/(<li.*?>.*?<\/li>\s*)+/g`: every maximal run of
consecutive item units is wrapped in a single `<ul>` container. -/
def wrapLiRuns : Nat → List Char → List Char
  | 0, cs => cs
  | _ + 1, [] => []
  | fuel + 1, c :: rest =>
    match liUnit (c :: rest) with
    | some _ =>
      let p := liRunAux (fuel + 1) (c :: rest)
      "<ul class=\"my-4 space-y-1\">".data ++ p.1 ++ "</ul>".data ++ wrapLiRuns fuel p.2
    | none => c :: wrapLiRuns fuel rest

/-- The blockquote rule `/^> (.*$)/gim`. -/
def quoteLine (line : List Char) : List Char :=
  if charsLead ('>' :: ' ' :: []) line then
    "<blockquote class=\"border-l-4 border-vintage-black pl-4 my-4 italic text-vintage-gray-700\">".data ++
      line.drop 2 ++ "</blockquote>".data
  else line

/-- Global replace of a fixed substring, scanning left to right and
continuing after each replacement (`String.prototype.replace` with a `g`
regex of a literal pattern).  Fuelled; the callers pass `length + 1`. -/
def replaceAllSub (pat rep : List Char) : Nat → List Char → List Char
  | 0, cs => cs
  | _ + 1, [] => []
  | fuel + 1, c :: rest =>
    if charsLead pat (c :: rest) then rep ++ replaceAllSub pat rep fuel ((c :: rest).drop pat.length)
    else c :: replaceAllSub pat rep fuel rest

/-- The markdown-to-HTML rewriter `parseMarkdown`: the nine rewrite rules of
the source in their fixed order, ending with the conditional whole-output
paragraph wrap, whose guard tests the intermediate HTML for the literal
substrings `<p>`, `<h1>`, `<h2>`, `<h3>`. -/
def parseMarkdown (text : String) : String :=
  let s0 := text.data
  let s1 := mapLines (headingLine "###".data "<h3 class=\"text-lg font-serif font-bold mt-6 mb-3 text-vintage-title\">".data "</h3>".data) s0
  let s2 := mapLines (headingLine "##".data "<h2 class=\"text-xl font-serif font-bold mt-8 mb-4 text-vintage-title\">".data "</h2>".data) s1
  let s3 := mapLines (headingLine "#".data "<h1 class=\"text-2xl font-serif font-bold mt-8 mb-4 text-vintage-title\">".data "</h1>".data) s2
  let s4 := replaceLazyPair "**".data "**".data "<strong class=\"font-semibold text-vintage-black\">".data "</strong>".data false (s3.length + 1) s3
  let s5 := replaceLazyPair "*".data "*".data "<em class=\"italic\">".data "</em>".data false (s4.length + 1) s4
  let s6 := replaceLazyPair "```".data "```".data "<pre class=\"bg-vintage-gray-100 border border-vintage-gray-300 p-4 my-4 font-mono text-sm overflow-x-auto\"><code>".data "</code></pre>".data true (s5.length + 1) s5
  let s7 := replaceLazyPair "`".data "`".data "<code class=\"bg-vintage-gray-100 px-2 py-1 font-mono text-sm border border-vintage-gray-300\">".data "</code>".data false (s6.length + 1) s6
  let s8 := mapLines bulletLine s7
  let s9 := mapLines orderedLine s8
  let s10 := wrapLiRuns (s9.length + 1) s9
  let s11 := mapLines quoteLine s10
  let s12 := replaceAllSub "\n\n".data "</p><p class=\"mb-4\">".data (s11.length + 1) s11
  let s13 := replaceAllSub "\n".data "<br>".data (s12.length + 1) s12
  let out :=
    if !containsSub "<p>".data s13 && !containsSub "<h1>".data s13 &&
       !containsSub "<h2>".data s13 && !containsSub "<h3>".data s13 then
      "<p class=\"mb-4\">".data ++ s13 ++ "</p>".data
    else s13
  String.mk out

/-! ### Specification-side definitions and concrete verification inputs -/

/-- Specification-side count of the whitespace-delimited non-empty tokens of
a character list: the number of maximal non-whitespace runs, counted at
their first characters.  The flag records whether the previous character was
part of a token. -/
def tokenStarts : Bool → List Char → Nat
  | _, [] => 0
  | inTok, c :: rest =>
    if jsWhitespace c then tokenStarts false rest
    else (if inTok then 0 else 1) + tokenStarts true rest

/-- Three parsed pages, each carrying the single text fragment
`Hello world` — the document of end-to-end scenario A. -/
def helloPages : List PageOutcome :=
  [.ok [.strItem "Hello world"], .ok [.strItem "Hello world"], .ok [.strItem "Hello world"]]

/-- The scenario-A document (metadata read throws, yielding `{}`). -/
def helloDoc : PDFDocument := { pages := helloPages, metadataOutcome := .threw }

/-- The scenario-A upload descriptor. -/
def helloFile : JSFile := { name := "hello.pdf", mimeType := "application/pdf", size := 3000 }

/-- The text `extractTextFromPDF` produces for the scenario-A document. -/
def helloText : String :=
  "--- Page 1 ---\nHello world\n\n--- Page 2 ---\nHello world\n\n--- Page 3 ---\nHello world"

/-- The attachment `processPDFFile` builds for the scenario-A document. -/
def helloAttachment : Attachment :=
  { name := "hello.pdf", kind := "pdf", size := 3000, url := "blob:hello",
    extractedText := some helloText, metadata := some {} }

/-- Key-info extraction result with no matches in any category (the
scenario-A text contains no email, phone, URL or date patterns). -/
def emptyKeyInfo : KeyInfo := { emails := [], phones := [], urls := [], dates := [] }

/-- Fresh orchestrator state at the start of an upload. -/
def emptyOrchState : OrchestratorState :=
  { messages := [], attachment := none, error := none, isLoading := true, releasedUrls := [] }

/-- A two-page document whose second page parses to no text at all; the
first page alone carries more than 10 characters. -/
def sparsePages : List PageOutcome :=
  [.ok [.strItem "This page has plenty of text"], .ok []]

/-- The two-page document with an empty second page. -/
def sparseDoc : PDFDocument := { pages := sparsePages, metadataOutcome := .threw }

/-- A transport on which every call throws. -/
def throwingTransport : GroqRequest → CallOutcome := fun _ => .threw "network timeout"

/-- A transport on which every call returns a whitespace-only body. -/
def whitespaceTransport : GroqRequest → CallOutcome := fun _ => .returned (some " ")

/-- A transport on which every call returns the body `" x "`. -/
def paddedTransport : GroqRequest → CallOutcome := fun _ => .returned (some " x ")

/-- A conversation history of eleven messages. -/
def hist11 : List ChatMessage :=
  (List.range 11).map (fun i => { role := "user", content := toString i })

/-- An upload descriptor with a non-PDF declared media type. -/
def c7File : JSFile := { name := "notes.txt", mimeType := "text/plain", size := 5 }

/-- An attachment already stored before a failing upload. -/
def c7PrevAttachment : Attachment :=
  { name := "old.pdf", kind := "pdf", size := 10, url := "blob:old",
    extractedText := some "previous text here", metadata := some {} }

/-- Orchestrator state holding `c7PrevAttachment` and one prior message. -/
def c7State : OrchestratorState :=
  { messages := [{ role := "user", content := "hi" }], attachment := some c7PrevAttachment,
    error := none, isLoading := true, releasedUrls := [] }

/-! ### Helper lemmas -/

/-- A list is a leading segment of itself followed by anything. -/
theorem charsLead_append_self (p t : List Char) : charsLead p (p ++ t) = true := by
  induction p with
  | nil => rfl
  | cons a ps ih => simp [charsLead, ih]

/-- A string extended on the right still starts with itself. -/
theorem strStartsWith_append_self (a b : String) : strStartsWith (a ++ b) a = true := by
  simp [strStartsWith, String.data_append, charsLead_append_self]

/-- Every page block starts with its page marker. -/
theorem strStartsWith_pageBlock (n : Nat) (txt : String) :
    strStartsWith (pageBlock n txt) (pageMarker n) = true := by
  simp [strStartsWith, pageBlock, String.data_append, List.append_assoc, charsLead_append_self]

/-- Every error block starts with its page marker. -/
theorem strStartsWith_pageErrorBlock (n : Nat) :
    strStartsWith (pageErrorBlock n) (pageMarker n) = true := by
  simp [strStartsWith, pageErrorBlock, String.data_append, List.append_assoc,
    charsLead_append_self]

/-- A string extended with a final newline ends with a newline. -/
theorem strEndsWith_newline (a : String) : strEndsWith (a ++ "\n") "\n" = true := by
  have h1 : ("\n" : String).data = ['\n'] := rfl
  simp [strEndsWith, String.data_append, h1, List.reverse_append, charsLead]

/-- Length of the tokenizer output: the accumulator contributes one pending
token when non-empty, and the remaining characters contribute one token per
token start. -/
theorem tokensAux_length (cs : List Char) : ∀ acc : List Char,
    (tokensAux cs acc).length = tokenStarts (!acc.isEmpty) cs + (if acc.isEmpty then 0 else 1) := by
  induction cs with
  | nil =>
    intro acc
    by_cases h : acc.isEmpty <;> simp [tokensAux, tokenStarts, h]
  | cons c rest ih =>
    intro acc
    by_cases hws : jsWhitespace c
    · by_cases h : acc.isEmpty <;>
        simp [tokensAux, tokenStarts, hws, h, ih []]
    · by_cases h : acc.isEmpty
      · simp [tokensAux, tokenStarts, hws, h, ih (c :: acc)]
        omega
      · simp [tokensAux, tokenStarts, hws, h, ih (c :: acc)]

/-- The number of whitespace-delimited tokens of a string equals the number
of token starts. -/
theorem wsTokens_length (s : String) : (wsTokens s).length = tokenStarts false s.data := by
  simpa [wsTokens] using tokensAux_length s.data []

/-- The thrown too-short-text message is classified as the
empty-or-image-only category. -/
theorem classify_emptyExtractionMsg :
    classifyExtractionError emptyExtractionMsg = emptyOrImageOnlyMsg := by decide

/-- Blocks built for pages that all produce a block are in one-to-one
correspondence with the pages. -/
theorem buildBlocks_length (pages : List PageOutcome)
    (h : ∀ po ∈ pages, producesBlock po = true) :
    ∀ n : Nat, (buildBlocks n pages).length = pages.length := by
  induction pages with
  | nil => intro n; rfl
  | cons po rest ih =>
    intro n
    have hrest : ∀ p ∈ rest, producesBlock p = true :=
      fun p hp => h p (List.mem_cons_of_mem _ hp)
    cases po with
    | ok items =>
      have hp : ¬ pageText items = "" := by
        have hmem := h _ (List.mem_cons_self _ _)
        simpa [producesBlock] using hmem
      simp [buildBlocks, hp, ih hrest (n + 1)]
    | threw => simp [buildBlocks, ih hrest (n + 1)]

/-- When every page produces a block, the `i`-th block starts with the marker
of page `n + i`. -/
theorem buildBlocks_getD_marker (pages : List PageOutcome) :
    ∀ (n i : Nat), (∀ po ∈ pages, producesBlock po = true) → i < pages.length →
      strStartsWith ((buildBlocks n pages).getD i "") (pageMarker (n + i)) = true := by
  induction pages with
  | nil => intro n i _ hi; simp at hi
  | cons po rest ih =>
    intro n i h hi
    have hrest : ∀ p ∈ rest, producesBlock p = true :=
      fun p hp => h p (List.mem_cons_of_mem _ hp)
    cases po with
    | ok items =>
      have hp : ¬ pageText items = "" := by
        have hmem := h _ (List.mem_cons_self _ _)
        simpa [producesBlock] using hmem
      cases i with
      | zero => simpa [buildBlocks, hp] using strStartsWith_pageBlock n (pageText items)
      | succ j =>
        have hj : j < rest.length := by simpa using Nat.lt_of_succ_lt_succ hi
        have hstep := ih (n + 1) j hrest hj
        have harith : n + 1 + j = n + (j + 1) := by omega
        simpa [buildBlocks, hp, harith] using hstep
    | threw =>
      cases i with
      | zero => simpa [buildBlocks] using strStartsWith_pageErrorBlock n
      | succ j =>
        have hj : j < rest.length := by simpa using Nat.lt_of_succ_lt_succ hi
        have hstep := ih (n + 1) j hrest hj
        have harith : n + 1 + j = n + (j + 1) := by omega
        simpa [buildBlocks, harith] using hstep

/-- Every block ends with a newline. -/
theorem buildBlocks_end_newline (pages : List PageOutcome) :
    ∀ (n : Nat) (b : String), b ∈ buildBlocks n pages → strEndsWith b "\n" = true := by
  induction pages with
  | nil => intro n b hb; simp [buildBlocks] at hb
  | cons po rest ih =>
    intro n b hb
    cases po with
    | ok items =>
      by_cases hp : pageText items = ""
      · simp [buildBlocks, hp] at hb
        exact ih (n + 1) b hb
      · simp [buildBlocks, hp] at hb
        rcases hb with hb | hb
        · subst hb
          simpa [pageBlock] using strEndsWith_newline (pageMarker n ++ "\n" ++ pageText items)
        · exact ih (n + 1) b hb
    | threw =>
      simp [buildBlocks] at hb
      rcases hb with hb | hb
      · subst hb
        simpa [pageErrorBlock] using
          strEndsWith_newline (pageMarker n ++ "\n" ++ "[Error extracting text from this page]")
      · exact ih (n + 1) b hb

/-! ### Claim theorems -/

/-- C6: for every byte stream that decodes as a PDF but whose concatenated
extracted text, after processing all pages, is absent or shorter than 10
characters, `extractTextFromPDF` fails with the empty-or-image-only error
classification rather than returning a result. -/
theorem extractTextFromPDF_short_text_is_emptyOrImageOnly (fileName : String)
    (doc : PDFDocument) (h : (fullTextOf doc.pages).length < 10) :
    extractTextFromPDF fileName (.ok doc) = .error emptyOrImageOnlyMsg := by
  simp [extractTextFromPDF, h, classify_emptyExtractionMsg]

/-- Witness for C6: a decoded document with no pages yields the empty text
and is rejected with the empty-or-image-only message. -/
theorem extractTextFromPDF_short_text_is_emptyOrImageOnly_witness :
    extractTextFromPDF "empty.pdf" (.ok { pages := [], metadataOutcome := .threw }) =
      .error emptyOrImageOnlyMsg :=
  extractTextFromPDF_short_text_is_emptyOrImageOnly "empty.pdf"
    { pages := [], metadataOutcome := .threw } (by decide)

/-- C8: for every attachment, `getPDFStats` computes `wordCount` as the
number of whitespace-delimited non-empty tokens of the extracted text,
`characterCount` as its length, and `readingTime` as the ceiling of
`wordCount / 200` (pinned by the two inequalities); for the empty text the
word count is 0. -/
theorem getPDFStats_word_count_and_reading_time (att : Attachment) :
    (getPDFStats att).wordCount = tokenStarts false (att.extractedText.getD "").data ∧
    (getPDFStats att).characterCount = (att.extractedText.getD "").length ∧
    (getPDFStats att).wordCount ≤ 200 * (getPDFStats att).readingTime ∧
    200 * (getPDFStats att).readingTime < (getPDFStats att).wordCount + 200 ∧
    (getPDFStats { att with extractedText := some "" }).wordCount = 0 := by
  refine ⟨?_, rfl, ?_, ?_, rfl⟩
  · simpa [getPDFStats] using wsTokens_length (att.extractedText.getD "")
  · simp only [getPDFStats]
    omega
  · simp only [getPDFStats]
    omega

/-- C10: for every file declared as `application/pdf`, `validatePDFFile`
reports it invalid exactly when its byte size strictly exceeds
`15 * 1024 * 1024`; a file of exactly that size passes. -/
theorem validatePDFFile_fifteen_MiB_boundary (size : Nat) :
    ((validatePDFFile "application/pdf" size).valid = false ↔ 15 * 1024 * 1024 < size) ∧
    (validatePDFFile "application/pdf" (15 * 1024 * 1024)).valid = true ∧
    (validatePDFFile "application/pdf" (15 * 1024 * 1024 + 1)).valid = false := by
  refine ⟨?_, by decide, by decide⟩
  by_cases h : 15 * 1024 * 1024 < size
  · simp [validatePDFFile, h]
  · simp [validatePDFFile, h]

/-- C1: when the primary call fails (throws, or returns an absent or empty
body), `chatWithContext` issues exactly one further request — to the
fallback model, with the history truncated to the last ≤ 8 entries (a suffix
of the history) and the document context truncated to ≤ 6000 characters —
and when that attempt also fails, the overall result is the fixed
service-unavailable error, with no transport error value in it. -/
theorem chatWithContext_fallback_on_primary_failure (q : String) (hist : List ChatMessage)
    (doc : Option String) (transport : GroqRequest → CallOutcome)
    (hfail : (∃ e, transport (primaryRequest q hist doc) = .threw e) ∨
             transport (primaryRequest q hist doc) = .returned none ∨
             transport (primaryRequest q hist doc) = .returned (some "")) :
    (chatWithContext q hist doc transport).2 =
      [primaryRequest q hist doc, fallbackRequest q hist doc] ∧
    (primaryRequest q hist doc).model = defaultModel ∧
    (fallbackRequest q hist doc).model = fallbackModel ∧
    ((chatWithContext q hist doc transport).2.filter
        (fun r => r.model == fallbackModel)).length = 1 ∧
    (fallbackRequest q hist doc).messages =
      systemMessage :: jsSliceLast 8 hist ++
        [{ role := "user", content := fallbackUserContent q doc }] ∧
    (jsSliceLast 8 hist).length ≤ 8 ∧
    hist.take (hist.length - 8) ++ jsSliceLast 8 hist = hist ∧
    (∀ d, doc = some d → d ≠ "" →
        fallbackUserContent q doc =
          "Document Context:\n" ++ takeChars 6000 d ++ "\n\nUser Question: " ++ q ∧
        (takeChars 6000 d).length ≤ 6000) ∧
    (attemptResponse (transport (fallbackRequest q hist doc)) = none →
        (chatWithContext q hist doc transport).1 = Except.error serviceUnavailableMsg) := by
  have hA : attemptResponse (transport (primaryRequest q hist doc)) = none := by
    rcases hfail with ⟨e, he⟩ | he | he <;> simp [attemptResponse, he]
  refine ⟨?_, rfl, rfl, ?_, rfl, ?_, List.take_append_drop _ _, ?_, ?_⟩
  · simp only [chatWithContext, hA]
    cases attemptResponse (transport (fallbackRequest q hist doc)) <;> simp
  · have hreq : (chatWithContext q hist doc transport).2 =
        [primaryRequest q hist doc, fallbackRequest q hist doc] := by
      simp only [chatWithContext, hA]
      cases attemptResponse (transport (fallbackRequest q hist doc)) <;> simp
    rw [hreq]
    simp [primaryRequest, fallbackRequest, defaultModel, fallbackModel]
  · simp [jsSliceLast]
    omega
  · intro d hd hne
    subst hd
    refine ⟨by simp [fallbackUserContent, docPresent, hne], ?_⟩
    have h : (takeChars 6000 d).length = (d.data.take 6000).length := rfl
    rw [h, List.length_take]
    omega
  · intro h2
    simp [chatWithContext, hA, h2]

/-- Witness for C1: a transport that always throws drives both attempts to
failure, and the caller receives exactly the service-unavailable error. -/
theorem chatWithContext_fallback_on_primary_failure_witness :
    (chatWithContext "What is this about?" [] (some "Annual Report 2024")
        throwingTransport).1 = Except.error serviceUnavailableMsg :=
  (chatWithContext_fallback_on_primary_failure "What is this about?" []
      (some "Annual Report 2024") throwingTransport
      (Or.inl ⟨"network timeout", rfl⟩)).2.2.2.2.2.2.2.2 rfl

/-- C4 counterexample: the user turn assembled with a document present ends
in `\n\nUser Question: ` followed by the question — a colon and a space, not
the colon-newline separator the claim states. -/
theorem primaryRequest_user_question_separator_counterexample :
    primaryUserContent "Q" (some "D") = "Document Context:\nD\n\nUser Question: Q" ∧
    primaryUserContent "Q" (some "D") ≠ "Document Context:\nD\n\nUser Question:\nQ" ∧
    (primaryRequest "Q" [] (some "D")).messages =
      [systemMessage, { role := "user", content := "Document Context:\nD\n\nUser Question: Q" }] := by
  refine ⟨by decide, by decide, rfl⟩

/-- C4 as amended: the primary request is the fixed system message, the last
≤ 10 history entries in original order (exactly the last 10 of 11), then one
user turn whose content is the raw question without a document, and
`Document Context:\n` + the document truncated to 8000 characters +
`\n\nUser Question: ` + the question with one. -/
theorem primaryRequest_assembly (q : String) (hist : List ChatMessage) (d : String)
    (hd : d ≠ "") :
    (primaryRequest q hist (some d)).messages =
      systemMessage :: jsSliceLast 10 hist ++
        [{ role := "user",
           content := "Document Context:\n" ++ takeChars 8000 d ++ "\n\nUser Question: " ++ q }] ∧
    (primaryRequest q hist none).messages =
      systemMessage :: jsSliceLast 10 hist ++ [{ role := "user", content := q }] ∧
    (jsSliceLast 10 hist).length ≤ 10 ∧
    hist.take (hist.length - 10) ++ jsSliceLast 10 hist = hist ∧
    (hist.length = 11 → jsSliceLast 10 hist = hist.drop 1) ∧
    (takeChars 8000 d).length ≤ 8000 := by
  refine ⟨?_, ?_, ?_, List.take_append_drop _ _, ?_, ?_⟩
  · cases hist with
    | nil => simp [primaryRequest, primaryUserContent, docPresent, hd, jsSliceLast]
    | cons m ms => simp [primaryRequest, primaryUserContent, docPresent, hd, jsSliceLast]
  · cases hist with
    | nil => simp [primaryRequest, primaryUserContent, docPresent, jsSliceLast]
    | cons m ms => simp [primaryRequest, primaryUserContent, docPresent, jsSliceLast]
  · simp [jsSliceLast]
    omega
  · intro h11
    simp [jsSliceLast, h11]
  · have h : (takeChars 8000 d).length = (d.data.take 8000).length := rfl
    rw [h, List.length_take]
    omega

/-- Witness for C4 (amended): with an eleven-message history the request
history is exactly the last ten entries. -/
theorem primaryRequest_assembly_witness :
    jsSliceLast 10 hist11 = hist11.drop 1 :=
  (primaryRequest_assembly "Q" hist11 "D" (by decide)).2.2.2.2.1 (by rfl)

/-- C5 counterexample: a whitespace-only primary reply is accepted — the
call returns successfully with the empty string after trimming and the
fallback is never issued — contradicting the claim that such a reply counts
as a failure of the attempt. -/
theorem chatWithContext_whitespace_reply_counterexample :
    chatWithContext "Q" [] none whitespaceTransport =
      (Except.ok "", [primaryRequest "Q" [] none]) ∧
    attemptResponse (CallOutcome.returned (some " ")) = some "" := ⟨rfl, rfl⟩

/-- C5 as amended: an attempt fails exactly when the reply body is absent or
is the empty string before trimming; any non-empty body — whitespace-only
included — is accepted and returned trimmed (possibly as the empty
string). -/
theorem chatWithContext_empty_check_is_raw (q : String) (hist : List ChatMessage)
    (doc : Option String) (transport : GroqRequest → CallOutcome) (s : String)
    (hresp : transport (primaryRequest q hist doc) = CallOutcome.returned (some s)) :
    (s ≠ "" → chatWithContext q hist doc transport =
        (Except.ok (jsTrim s), [primaryRequest q hist doc])) ∧
    (s = "" → (chatWithContext q hist doc transport).2 =
        [primaryRequest q hist doc, fallbackRequest q hist doc]) := by
  constructor
  · intro hne
    simp [chatWithContext, attemptResponse, hresp, hne]
  · intro he
    subst he
    simp only [chatWithContext, attemptResponse, hresp, if_pos rfl]
    cases hfb : transport (fallbackRequest q hist doc) <;> simp [attemptResponse]
    case returned content =>
      cases content <;> simp
      case some s2 => by_cases h2 : s2 = "" <;> simp [h2]

/-- Witness for C5 (amended): the padded reply `" x "` is accepted on the
primary attempt and returned trimmed, with no fallback request issued. -/
theorem chatWithContext_empty_check_is_raw_witness :
    chatWithContext "Q" [] none paddedTransport =
      (Except.ok "x", [primaryRequest "Q" [] none]) := by
  have h := (chatWithContext_empty_check_is_raw "Q" [] none paddedTransport " x " rfl).1
    (by decide)
  simpa using h

/-- C3 counterexample: on a valid two-page document whose second page parses
to empty text (total text well over 10 characters), extraction succeeds with
`pageCount = 2` but the result contains no `--- Page 2 ---` marker — the
markers are not contiguous for N = 1..pageCount as the claim states. -/
theorem extractTextFromPDF_skips_empty_page_marker :
    extractTextFromPDF "sparse.pdf" (.ok sparseDoc) =
      .ok { text := "--- Page 1 ---\nThis page has plenty of text", pageCount := 2,
            metadata := {} } ∧
    strIncludes "--- Page 1 ---\nThis page has plenty of text" "--- Page 2 ---" = false ∧
    strIncludes "--- Page 1 ---\nThis page has plenty of text" "--- Page 1 ---" = true :=
  ⟨rfl, rfl, rfl⟩

/-- C3 as amended: for every decoded document in which each page produces a
block (non-empty text, or a per-page error placeholder) and the combined
text reaches 10 characters, extraction succeeds; the blocks are in page
order, one per page, the `i`-th starting with the `--- Page (1+i) ---`
marker and ending with a newline, and the result is the newline-join of the
blocks, trimmed.  Pages parsing to empty text produce no block, so their
markers are omitted. -/
theorem extractTextFromPDF_page_markers (fileName : String) (doc : PDFDocument)
    (hblocks : ∀ po ∈ doc.pages, producesBlock po = true)
    (hlen : 10 ≤ (fullTextOf doc.pages).length) :
    extractTextFromPDF fileName (.ok doc) =
      .ok { text := fullTextOf doc.pages, pageCount := doc.pages.length,
            metadata := buildMetadata fileName doc.metadataOutcome } ∧
    fullTextOf doc.pages = jsTrim (String.intercalate "\n" (buildBlocks 1 doc.pages)) ∧
    (buildBlocks 1 doc.pages).length = doc.pages.length ∧
    (∀ i, i < doc.pages.length →
        strStartsWith ((buildBlocks 1 doc.pages).getD i "") (pageMarker (1 + i)) = true) ∧
    (∀ b ∈ buildBlocks 1 doc.pages, strEndsWith b "\n" = true) := by
  have hnot : ¬ (fullTextOf doc.pages).length < 10 := by omega
  refine ⟨?_, rfl, buildBlocks_length doc.pages hblocks 1, ?_, ?_⟩
  · simp [extractTextFromPDF, hnot]
  · intro i hi
    exact buildBlocks_getD_marker doc.pages 1 i hblocks hi
  · intro b hb
    exact buildBlocks_end_newline doc.pages 1 b hb

/-- Witness for C3 (amended): the three-page scenario-A document satisfies
both hypotheses and extraction succeeds with its three page blocks. -/
theorem extractTextFromPDF_page_markers_witness :
    extractTextFromPDF "hello.pdf" (.ok helloDoc) =
      .ok { text := fullTextOf helloDoc.pages, pageCount := helloDoc.pages.length,
            metadata := buildMetadata "hello.pdf" helloDoc.metadataOutcome } :=
  (extractTextFromPDF_page_markers "hello.pdf" helloDoc (by decide) (by decide)).1

/-- C7: when an upload fails at any step, the orchestrator only records the
classified error message and clears the loading flag — the stored
attachment, the conversation and the set of released display handles are
unchanged. -/
theorem handleFileUpload_failure_preserves_state (st : OrchestratorState) (f : JSFile)
    (lo : LoadOutcome) (url : String) (ki : KeyInfo) (m : String)
    (h : processPDFFile f lo url = Except.error m) :
    handleFileUpload st (processPDFFile f lo url) ki =
      { st with error := some m, isLoading := false } ∧
    (handleFileUpload st (processPDFFile f lo url) ki).attachment = st.attachment ∧
    (handleFileUpload st (processPDFFile f lo url) ki).messages = st.messages ∧
    (handleFileUpload st (processPDFFile f lo url) ki).releasedUrls = st.releasedUrls ∧
    (handleFileUpload st (processPDFFile f lo url) ki).error = some m := by
  rw [h]
  exact ⟨rfl, rfl, rfl, rfl, rfl⟩

/-- Witness for C7: a failing upload (wrong media type) over a state holding
a previous attachment leaves that attachment in place. -/
theorem handleFileUpload_failure_preserves_state_witness :
    (handleFileUpload c7State
        (processPDFFile c7File (.ok { pages := [], metadataOutcome := .threw }) "blob:new")
        emptyKeyInfo).attachment = some c7PrevAttachment := by
  have h := (handleFileUpload_failure_preserves_state c7State c7File
    (.ok { pages := [], metadataOutcome := .threw }) "blob:new" emptyKeyInfo
    "Please select a PDF file" rfl).2.1
  simpa using h

set_option maxRecDepth 16384

/-- C2: on the three-page `Hello world` document the extracted text does
contain the three page markers and the phrase three times, but the pages
figure of the appended analysis message is 0, not the page count 3:
extraction computes `pageCount = 3` yet stores no `pageCount` in the
attachment metadata, and `getPDFStats` falls back to 0. -/
theorem analysis_message_reports_zero_pages :
    extractTextFromPDF "hello.pdf" (.ok helloDoc) =
      .ok { text := helloText, pageCount := 3, metadata := {} } ∧
    processPDFFile helloFile (.ok helloDoc) "blob:hello" = .ok helloAttachment ∧
    strCount helloText "Hello world" = 3 ∧
    strCount helloText "--- Page " = 3 ∧
    strIncludes helloText "--- Page 1 ---" = true ∧
    strIncludes helloText "--- Page 2 ---" = true ∧
    strIncludes helloText "--- Page 3 ---" = true ∧
    helloAttachment.metadata = some {} ∧
    PDFMeta.pageCount {} = none ∧
    (getPDFStats helloAttachment).pages = 0 ∧
    strIncludes (analysisContent helloAttachment emptyKeyInfo) "**Pages**: 0" = true ∧
    strIncludes (analysisContent helloAttachment emptyKeyInfo) "**Pages**: 3" = false ∧
    (handleFileUpload emptyOrchState (processPDFFile helloFile (.ok helloDoc) "blob:hello")
        emptyKeyInfo).messages =
      [{ role := "assistant", content := analysisContent helloAttachment emptyKeyInfo }] :=
  ⟨rfl, rfl, rfl, rfl, rfl, rfl, rfl, rfl, rfl, rfl, rfl, rfl, rfl⟩

/-- C9: `parseMarkdown` adds the whole-output paragraph wrapper even when a
heading block or a paragraph break was produced — its guard looks for the
literal substrings `<p>`, `<h1>`, `<h2>`, `<h3>`, which the generated
class-attributed tags never contain — contradicting the rule that the
wrapper appears only when no block-level wrapper was produced. -/
theorem parseMarkdown_wraps_despite_block_output :
    parseMarkdown "# Title" =
      "<p class=\"mb-4\"><h1 class=\"text-2xl font-serif font-bold mt-8 mb-4 text-vintage-title\">Title</h1></p>" ∧
    strIncludes (parseMarkdown "# Title") "<h1 class=" = true ∧
    strStartsWith (parseMarkdown "# Title") "<p class=\"mb-4\">" = true ∧
    parseMarkdown "First paragraph\n\nSecond paragraph" =
      "<p class=\"mb-4\">First paragraph</p><p class=\"mb-4\">Second paragraph</p>" :=
  ⟨rfl, rfl, rfl, rfl⟩
